import Mathlib

/-!
Shallow embedding of the pogo API session layer (`src/api/session.go`).

The Go file defines a `Session` over a `Location`, talking to the game
backend through an RPC transport.  Pure data (constants, envelopes,
request batches, URL resolution) is translated directly; the stateful
methods become explicit state-passing functions `Session → … → Session × result`.

External collaborators are modelled as parameters:
  * the transport `rpc.Client.Request` becomes a function argument of type
    `Transport`;
  * the auth provider interface (`Login`, `GetProviderString`,
    `GetAccessToken`) becomes a record of the values those calls produce;
  * the s2 geometry library (`CellIDFromLatLng`, `Parent`,
    `EdgeNeighbors`) becomes a record `S2Geometry` of abstract functions.
    The Go signature `func (ci CellID) EdgeNeighbors() [4]CellID` returns a
    fixed-size array of exactly 4 cells, which the record reflects as
    `Fin 4 → CellID`;
  * `proto.Marshal` on the three request-message types becomes injective
    constructors of an inductive `Bytes` type (protobuf serialization is
    deterministic); `proto.Unmarshal` into a freshly allocated response
    message becomes a record `ProtoCodec` of functions returning the
    resulting message state together with the (possibly discarded) error.

Go `float64` coordinate values are only stored and copied by this code,
never computed on, so they are modelled by an abstract value type.
Go `error` values become `Option GoError`; an out-of-range slice index,
which panics in Go, is modelled by `Except GoPanic`.
-/

/-- Go `float64` values, which session.go only stores and copies (never
arithmetic), modelled opaquely by integers. -/
abbrev Float64 := Int

/-- An s2 `CellID` is a `uint64`; modelled as `Nat` (only copied, never
computed on in session.go). -/
abbrev CellID := Nat

/-- `const defaultURL = "https://pgorelease.nianticlabs.com/plfe/rpc"` -/
def defaultURL : String := "https://pgorelease.nianticlabs.com/plfe/rpc"

/-- `const downloadSettingsHash = "05daf51635c82611d1aac95c0b051d3ec088a930"` -/
def downloadSettingsHash : String := "05daf51635c82611d1aac95c0b051d3ec088a930"

/-- `const cellIDLevel = 15` -/
def cellIDLevel : Nat := 15

/-- `Location` consists of coordinates in longitude, latitude and altitude. -/
structure Location where
  lon : Float64
  lat : Float64
  alt : Float64
deriving DecidableEq

/-- Go `error` values as they appear in this package: `custom` stands for an
arbitrary error value (`fmt.Errorf` results and errors produced by external
collaborators); `requestError` stands for the generic `&RequestError{}` value.
`RequestError` itself is declared elsewhere in the repository (outside src/);
modelled from the spec: it is the "generic request-failure outcome", an error
value carrying no information about the underlying cause. -/
inductive GoError where
  | custom (msg : String)
  | requestError
deriving DecidableEq

/-- A Go runtime panic (here: slice index out of range). -/
structure GoPanic where
  msg : String
deriving DecidableEq

/-- The auth provider interface (`auth.Provider`, external collaborator),
modelled as the results of its three capabilities: `loginErr` is the error
component of `Login()` (whose value result session.go discards),
`providerString` is `GetProviderString()`, `accessToken` is
`GetAccessToken()`. -/
structure AuthProvider where
  loginErr : Option GoError
  providerString : String
  accessToken : String
deriving DecidableEq

/-- The s2 geometry library functions used by `getCellIDs`, abstract:
`cellIDFromLatLng lat lon` is `CellIDFromLatLng(LatLngFromDegrees(lat, lon))`,
`parent c l` is `c.Parent(l)`, and `edgeNeighbors c` is `c.EdgeNeighbors()`,
whose Go return type `[4]CellID` fixes exactly four neighbor cells. -/
structure S2Geometry where
  cellIDFromLatLng : Float64 → Float64 → CellID
  parent : CellID → Nat → CellID
  edgeNeighbors : CellID → Fin 4 → CellID

/-- `protos.RequestType` (only the variants session.go mentions). -/
inductive RequestType where
  | GET_PLAYER
  | GET_HATCHED_EGGS
  | GET_INVENTORY
  | CHECK_AWARDED_BADGES
  | DOWNLOAD_SETTINGS
  | GET_MAP_OBJECTS
deriving DecidableEq

/-- `protos.GetMapObjectsMessage` fields set by `Announce`. -/
structure GetMapObjectsMessage where
  cellId : List CellID
  sinceTimestampMs : List Int
  longitude : Float64
  latitude : Float64
deriving DecidableEq

/-- `protos.GetInventoryMessage` field set by `Announce`. -/
structure GetInventoryMessage where
  lastTimestampMs : Int
deriving DecidableEq

/-- `protos.DownloadSettingsMessage` field set by `Init` and `Announce`. -/
structure DownloadSettingsMessage where
  hash : String
deriving DecidableEq

/-- Byte strings as session.go produces and consumes them: `empty` is the
absent (nil) `RequestMessage`; the `marshal…` constructors are the results
of `proto.Marshal` on the three request-message types (protobuf
serialization is deterministic, so a constructor per message models it);
`raw` is an arbitrary payload arriving from the wire in `Returns`. -/
inductive Bytes where
  | empty
  | marshalGetMapObjects (m : GetMapObjectsMessage)
  | marshalGetInventory (m : GetInventoryMessage)
  | marshalDownloadSettings (m : DownloadSettingsMessage)
  | raw (bs : List Nat)
deriving DecidableEq

/-- `protos.Request`: a typed sub-request with an optional payload. -/
structure Request where
  requestType : RequestType
  requestMessage : Bytes
deriving DecidableEq

/-- `protos.RequestEnvelope_AuthInfo_JWT`: the token sub-message. -/
structure AuthInfoJWT where
  contents : String
  unknown2 : Int
deriving DecidableEq

/-- `protos.RequestEnvelope_AuthInfo`. -/
structure AuthInfo where
  provider : String
  token : AuthInfoJWT
deriving DecidableEq

/-- `protos.RequestEnvelope` fields populated by `Call`. -/
structure RequestEnvelope where
  requestId : Nat
  statusCode : Int
  unknown12 : Int
  longitude : Float64
  latitude : Float64
  altitude : Float64
  authInfo : AuthInfo
  requests : List Request
deriving DecidableEq

/-- `protos.ResponseEnvelope` fields read by session.go: `ApiUrl`,
`StatusCode` and the positional result payloads `Returns`. -/
structure ResponseEnvelope where
  apiUrl : String
  statusCode : Int
  returns : List Bytes
deriving DecidableEq

/-- The RPC transport `rpc.Client.Request(url, envelope)`, an external
collaborator returning either a response envelope or a Go error. -/
abbrev Transport := String → RequestEnvelope → Except GoError ResponseEnvelope

/-- Opaque decoded response messages: only their identity matters to the
claims, so each carries an abstract payload. -/
structure GetPlayerResponse where
  data : List Nat
deriving DecidableEq

/-- Opaque decoded inventory response message. -/
structure GetInventoryResponse where
  data : List Nat
deriving DecidableEq

/-- Opaque decoded map-objects response message. -/
structure GetMapObjectsResponse where
  data : List Nat
deriving DecidableEq

/-- `proto.Unmarshal(bytes, target)` on a freshly allocated zero-valued
target message, for each of the three response types session.go decodes.
Each function returns the state the target message holds after the call
together with the error `proto.Unmarshal` returned (which session.go
discards). -/
structure ProtoCodec where
  unmarshalGetPlayer : Bytes → GetPlayerResponse × Option GoError
  unmarshalGetInventory : Bytes → GetInventoryResponse × Option GoError
  unmarshalGetMapObjects : Bytes → GetMapObjectsResponse × Option GoError

/-- `Session` from session.go.  The `rpc` client field is modelled by
passing a `Transport` to each operation, and the external classifier
`GetErrorFromStatus` (declared outside src/) is likewise a parameter of
`Announce`. -/
structure Session where
  location : Location
  url : String
  provider : AuthProvider
  debug : Bool
deriving DecidableEq

/-- `generateRequests` returns `make([]*protos.Request, 0)`. -/
def generateRequests : List Request := []

/-- `getCellIDs`: the level-15 parent cell of the coordinate followed by the
four cells of `origin.EdgeNeighbors()`, appended one by one as in the Go
`for … range` loop. -/
def getCellIDs (geo : S2Geometry) (location : Location) : List CellID :=
  let origin := geo.parent (geo.cellIDFromLatLng location.lat location.lon) cellIDLevel
  let cellIDs : List CellID := []
  let cellIDs := cellIDs.concat origin
  (List.ofFn (geo.edgeNeighbors origin)).foldl (fun acc cellID => acc.concat cellID) cellIDs

/-- `setURL`: store `fmt.Sprintf("https://%s/rpc", urlToken)` in the url field. -/
def Session.setURL (s : Session) (urlToken : String) : Session :=
  { s with url := "https://" ++ urlToken ++ "/rpc" }

/-- `getURL`: the stored url when set, the default bootstrap URL otherwise. -/
def Session.getURL (s : Session) : String :=
  if s.url ≠ "" then s.url else defaultURL

/-- The `RequestEnvelope` that `Call` builds: the three fixed protocol
constants, the Session coordinate, the auth info derived from the provider,
and the given sub-requests. -/
def Session.callEnvelope (s : Session) (requests : List Request) : RequestEnvelope :=
  { requestId := 8145806132888207460
    statusCode := 2
    unknown12 := 989
    longitude := s.location.lon
    latitude := s.location.lat
    altitude := s.location.alt
    authInfo :=
      { provider := s.provider.providerString
        token := { contents := s.provider.accessToken, unknown2 := 59 } }
    requests := requests }

/-- `Call`: build the envelope and perform one transport round trip to the
resolved URL (debug logging omitted: it writes to a log only). -/
def Session.Call (s : Session) (transport : Transport) (requests : List Request) :
    Except GoError ResponseEnvelope :=
  transport s.getURL (s.callEnvelope requests)

/-- The five-element batch `Init` builds (player, hatched eggs, inventory,
badges, settings keyed by the fixed hash), appended in source order. -/
def initRequests : List Request :=
  let requests := generateRequests
  let requests := requests.concat { requestType := RequestType.GET_PLAYER, requestMessage := Bytes.empty }
  let requests := requests.concat { requestType := RequestType.GET_HATCHED_EGGS, requestMessage := Bytes.empty }
  let requests := requests.concat { requestType := RequestType.GET_INVENTORY, requestMessage := Bytes.empty }
  let requests := requests.concat { requestType := RequestType.CHECK_AWARDED_BADGES, requestMessage := Bytes.empty }
  let settingsMessage := Bytes.marshalDownloadSettings { hash := downloadSettingsHash }
  requests.concat { requestType := RequestType.DOWNLOAD_SETTINGS, requestMessage := settingsMessage }

/-- `Init`: login first (failing fast on its error), send `initRequests`,
then bind the session to the assigned endpoint; an empty `ApiUrl` is the
hard failure `"Could not initialize session, the service might be down"`. -/
def Session.Init (s : Session) (transport : Transport) : Session × Option GoError :=
  match s.provider.loginErr with
  | some e => (s, some e)
  | none =>
    match s.Call transport initRequests with
    | Except.error e => (s, some e)
    | Except.ok response =>
      let url := response.apiUrl
      if url = "" then
        (s, some (GoError.custom ("Could not initialize session, the service might be down")))
      else
        (s.setURL url, none)

/-- The five-element batch `Announce` builds from the cell ids and the
millisecond timestamp, appended in source order: map objects (with a
zero-filled `SinceTimestampMs` of the same length as the cell ids, made by
`make([]int64, len(cellIDs))`), hatched eggs, inventory (keyed by the
timestamp), badges, settings. -/
def Session.announceRequests (s : Session) (cellIDs : List CellID) (lastTimestamp : Int) :
    List Request :=
  let requests := generateRequests
  let getMapObjectsMessage := Bytes.marshalGetMapObjects
    { cellId := cellIDs
      sinceTimestampMs := List.replicate cellIDs.length 0
      longitude := s.location.lon
      latitude := s.location.lat }
  let requests := requests.concat
    { requestType := RequestType.GET_MAP_OBJECTS, requestMessage := getMapObjectsMessage }
  let requests := requests.concat
    { requestType := RequestType.GET_HATCHED_EGGS, requestMessage := Bytes.empty }
  let getInventoryMessage := Bytes.marshalGetInventory { lastTimestampMs := lastTimestamp }
  let requests := requests.concat
    { requestType := RequestType.GET_INVENTORY, requestMessage := getInventoryMessage }
  let requests := requests.concat
    { requestType := RequestType.CHECK_AWARDED_BADGES, requestMessage := Bytes.empty }
  let settingsMessage := Bytes.marshalDownloadSettings { hash := downloadSettingsHash }
  requests.concat
    { requestType := RequestType.DOWNLOAD_SETTINGS, requestMessage := settingsMessage }

/-- Go slice indexing `xs[i]`: panics at runtime when `i` is out of range. -/
def goIndex (xs : List Bytes) (i : Nat) : Except GoPanic Bytes :=
  match xs.get? i with
  | some b => Except.ok b
  | none => Except.error { msg := "runtime error: index out of range" }

/-- `Announce`: build the batch from the current cells and wall clock
(`now` is `time.Now().Unix()`), call, swallow a transport error into the
generic `&RequestError{}`, otherwise decode `Returns[0]` as map objects
and classify the envelope status code (`classify` models
`GetErrorFromStatus`, declared outside src/).  The returned `Session`
component is the post-state (the method writes no field). -/
def Session.Announce (s : Session) (geo : S2Geometry) (transport : Transport)
    (codec : ProtoCodec) (classify : Int → Option GoError) (now : Int) :
    Session × Except GoPanic (Option GetMapObjectsResponse × Option GoError) :=
  let cellIDs := getCellIDs geo s.location
  let lastTimestamp := now * 1000
  let requests := s.announceRequests cellIDs lastTimestamp
  (s, match s.Call transport requests with
      | Except.error _ => Except.ok (none, some GoError.requestError)
      | Except.ok response =>
        match goIndex response.returns 0 with
        | Except.error p => Except.error p
        | Except.ok b =>
          Except.ok (some ((codec.unmarshalGetMapObjects b).fst), classify response.statusCode))

/-- `GetPlayer`: single player-profile sub-request; a transport error is
returned unmodified; on success `Returns[0]` is decoded and the
`proto.Unmarshal` error discarded. -/
def Session.GetPlayer (s : Session) (transport : Transport) (codec : ProtoCodec) :
    Session × Except GoPanic (Option GetPlayerResponse × Option GoError) :=
  let requests := generateRequests.concat
    { requestType := RequestType.GET_PLAYER, requestMessage := Bytes.empty }
  (s, match s.Call transport requests with
      | Except.error e => Except.ok (none, some e)
      | Except.ok response =>
        match goIndex response.returns 0 with
        | Except.error p => Except.error p
        | Except.ok b => Except.ok (some ((codec.unmarshalGetPlayer b).fst), none))

/-- `GetInventory`: single inventory sub-request; same error and decoding
contract as `GetPlayer`. -/
def Session.GetInventory (s : Session) (transport : Transport) (codec : ProtoCodec) :
    Session × Except GoPanic (Option GetInventoryResponse × Option GoError) :=
  let requests := generateRequests.concat
    { requestType := RequestType.GET_INVENTORY, requestMessage := Bytes.empty }
  (s, match s.Call transport requests with
      | Except.error e => Except.ok (none, some e)
      | Except.ok response =>
        match goIndex response.returns 0 with
        | Except.error p => Except.error p
        | Except.ok b => Except.ok (some ((codec.unmarshalGetInventory b).fst), none))

/-! Concrete instances used by witnesses and counterexamples. -/

/-- A concrete geometry backend (the claims about `getCellIDs` are
structural, so any backend instantiates them). -/
def cexGeo : S2Geometry :=
  { cellIDFromLatLng := fun _ _ => 100
    parent := fun c _ => c
    edgeNeighbors := fun c i => c + 1 + i.val }

/-- A concrete coordinate for the `getCellIDs` counterexample. -/
def cexLocation : Location := { lon := 0, lat := 0, alt := 0 }

/-- A second concrete geometry backend, used by operation witnesses. -/
def exampleGeo : S2Geometry :=
  { cellIDFromLatLng := fun _ _ => 0
    parent := fun c _ => c
    edgeNeighbors := fun c i => c + 1 + i.val }

/-- A concrete coordinate for operation witnesses. -/
def exampleLocation : Location := { lon := 10, lat := 20, alt := 30 }

/-- A provider whose login succeeds. -/
def exampleProvider : AuthProvider :=
  { loginErr := none, providerString := "ptc", accessToken := "token123" }

/-- A freshly constructed session (endpoint unset, as `NewSession` leaves it). -/
def exampleSession : Session :=
  { location := exampleLocation, url := "", provider := exampleProvider, debug := false }

/-- A codec on which every decode fails (returning a partial message and a
decode error, both of which session.go discards). -/
def exampleCodec : ProtoCodec :=
  { unmarshalGetPlayer := fun _ => ({ data := [1] }, some (GoError.custom ("proto: decode failed")))
    unmarshalGetInventory := fun _ => ({ data := [2] }, some (GoError.custom ("proto: decode failed")))
    unmarshalGetMapObjects := fun _ => ({ data := [3] }, some (GoError.custom ("proto: decode failed"))) }

/-- A transport that always fails. -/
def failingTransport : Transport := fun _ _ => Except.error (GoError.custom ("connection refused"))

/-- List.foldl of `concat` appends the folded list. -/
theorem foldl_concat_eq_append {α : Type} (xs acc : List α) :
    xs.foldl (fun a c => a.concat c) acc = acc ++ xs := by
  induction xs generalizing acc with
  | nil => simp
  | cons x xs ih =>
    rw [List.foldl_cons, ih]
    simp

/-- C1 (counterexample): at a concrete geometry backend and coordinate,
`getCellIDs` returns 5 cell identifiers, not the 7 the claim states:
`EdgeNeighbors` yields 4 edge-adjacent cells (its Go type is `[4]CellID`),
not 6. -/
theorem getCellIDs_not_seven :
    (getCellIDs cexGeo cexLocation).length = 5
    ∧ ¬ (getCellIDs cexGeo cexLocation).length = 7 := by
  decide

/-- C1 (amended): for every coordinate and every geometry backend,
`getCellIDs` returns exactly 5 cell identifiers — the level-15 cell
containing the coordinate at index 0, followed by its 4 edge-adjacent
neighbor cells at the same level. -/
theorem getCellIDs_origin_then_four_neighbors (geo : S2Geometry) (location : Location) :
    getCellIDs geo location =
      geo.parent (geo.cellIDFromLatLng location.lat location.lon) cellIDLevel
        :: List.ofFn (geo.edgeNeighbors
            (geo.parent (geo.cellIDFromLatLng location.lat location.lon) cellIDLevel))
    ∧ (getCellIDs geo location).length = 5
    ∧ cellIDLevel = 15 := by
  refine ⟨?_, ?_, rfl⟩
  · simp [getCellIDs, foldl_concat_eq_append]
  · simp [getCellIDs, foldl_concat_eq_append]

/-- C2: when the transport round trip fails, `Announce` returns the generic
request-failure error (for every underlying transport error, including ones
distinct from it), whereas `GetPlayer` and `GetInventory` return the
transport's original error unmodified. -/
theorem announce_swallows_transport_error (s : Session) (geo : S2Geometry)
    (codec : ProtoCodec) (classify : Int → Option GoError) (now : Int)
    (t : Transport) (e : GoError)
    (ht : ∀ u env, t u env = Except.error e) :
    s.Announce geo t codec classify now = (s, Except.ok (none, some GoError.requestError))
    ∧ s.GetPlayer t codec = (s, Except.ok (none, some e))
    ∧ s.GetInventory t codec = (s, Except.ok (none, some e)) := by
  refine ⟨?_, ?_, ?_⟩ <;>
    simp [Session.Announce, Session.GetPlayer, Session.GetInventory, Session.Call, ht]

/-- C2 (witness): the asymmetry at a concrete session and a concrete
transport error. -/
theorem announce_swallows_transport_error_witness :
    (∀ u env, failingTransport u env = Except.error (GoError.custom ("connection refused")))
    ∧ (exampleSession.Announce exampleGeo failingTransport exampleCodec (fun _ => none) 7
        = (exampleSession, Except.ok (none, some GoError.requestError))
      ∧ exampleSession.GetPlayer failingTransport exampleCodec
        = (exampleSession, Except.ok (none, some (GoError.custom ("connection refused"))))
      ∧ exampleSession.GetInventory failingTransport exampleCodec
        = (exampleSession, Except.ok (none, some (GoError.custom ("connection refused"))))) :=
  ⟨fun _ _ => rfl,
   announce_swallows_transport_error exampleSession exampleGeo exampleCodec (fun _ => none) 7
     failingTransport (GoError.custom ("connection refused")) (fun _ _ => rfl)⟩

/-- A response envelope assigning the endpoint fragment "abc123". -/
def okRespAbc : ResponseEnvelope := { apiUrl := "abc123", statusCode := 0, returns := [] }

/-- A transport that always answers with `okRespAbc`. -/
def okTransportAbc : Transport := fun _ _ => Except.ok okRespAbc

/-- C3: before `Init` has succeeded (url field unset) `getURL` returns the
fixed default bootstrap URL; after `Init` succeeds with assigned fragment
"abc123", `getURL` returns "https://abc123/rpc". -/
theorem getURL_bootstrap_then_bound (s : Session) (t : Transport) (resp : ResponseEnvelope)
    (hurl : s.url = "") (hlogin : s.provider.loginErr = none)
    (ht : ∀ u env, t u env = Except.ok resp) (hapi : resp.apiUrl = "abc123") :
    s.getURL = defaultURL
    ∧ defaultURL = "https://pgorelease.nianticlabs.com/plfe/rpc"
    ∧ (s.Init t).fst.getURL = "https://abc123/rpc"
    ∧ (s.Init t).snd = none := by
  refine ⟨?_, rfl, ?_, ?_⟩
  · simp [Session.getURL, hurl]
  · simp [Session.Init, hlogin, Session.Call, ht, hapi, Session.setURL, Session.getURL]
  · simp [Session.Init, hlogin, Session.Call, ht, hapi, Session.setURL]

/-- C3 (witness): URL resolution before and after a successful `Init` at a
concrete session and transport. -/
theorem getURL_bootstrap_then_bound_witness :
    (exampleSession.url = "" ∧ exampleSession.provider.loginErr = none
      ∧ (∀ u env, okTransportAbc u env = Except.ok okRespAbc) ∧ okRespAbc.apiUrl = "abc123")
    ∧ (exampleSession.getURL = defaultURL
      ∧ defaultURL = "https://pgorelease.nianticlabs.com/plfe/rpc"
      ∧ (exampleSession.Init okTransportAbc).fst.getURL = "https://abc123/rpc"
      ∧ (exampleSession.Init okTransportAbc).snd = none) :=
  ⟨⟨rfl, rfl, fun _ _ => rfl, rfl⟩,
   getURL_bootstrap_then_bound exampleSession okTransportAbc okRespAbc rfl rfl
     (fun _ _ => rfl) rfl⟩

/-- A response envelope with an empty assigned endpoint. -/
def emptyUrlResp : ResponseEnvelope := { apiUrl := "", statusCode := 0, returns := [] }

/-- A transport that always answers with `emptyUrlResp`. -/
def emptyUrlTransport : Transport := fun _ _ => Except.ok emptyUrlResp

/-- C4: when the transport round trip succeeds but the assigned endpoint is
empty, `Init` returns the binding-failure ("service might be down") error
and the Session is returned unchanged (still Bootstrapped). -/
theorem init_empty_endpoint_failure (s : Session) (t : Transport) (resp : ResponseEnvelope)
    (hlogin : s.provider.loginErr = none)
    (ht : ∀ u env, t u env = Except.ok resp) (hapi : resp.apiUrl = "") :
    s.Init t
      = (s, some (GoError.custom ("Could not initialize session, the service might be down"))) := by
  simp [Session.Init, hlogin, Session.Call, ht, hapi]

/-- C4 (witness): binding failure at a concrete session and transport. -/
theorem init_empty_endpoint_failure_witness :
    (exampleSession.provider.loginErr = none
      ∧ (∀ u env, emptyUrlTransport u env = Except.ok emptyUrlResp) ∧ emptyUrlResp.apiUrl = "")
    ∧ exampleSession.Init emptyUrlTransport
      = (exampleSession,
          some (GoError.custom ("Could not initialize session, the service might be down"))) :=
  ⟨⟨rfl, fun _ _ => rfl, rfl⟩,
   init_empty_endpoint_failure exampleSession emptyUrlTransport emptyUrlResp rfl
     (fun _ _ => rfl) rfl⟩

/-- A provider whose login fails. -/
def failLoginProvider : AuthProvider :=
  { loginErr := some (GoError.custom ("login denied")), providerString := "google", accessToken := "t" }

/-- A session built over the failing provider. -/
def failLoginSession : Session :=
  { location := exampleLocation, url := "", provider := failLoginProvider, debug := true }

/-- C5: when the auth provider's login fails, `Init` returns that error
verbatim, and — since the result is the same for every transport — the
transport is never invoked. -/
theorem init_login_failure_no_transport (s : Session) (t : Transport) (e : GoError)
    (hlogin : s.provider.loginErr = some e) :
    s.Init t = (s, some e) := by
  simp [Session.Init, hlogin]

/-- C5 (witness): the login error surfaces verbatim at a concrete session,
even through a transport that itself would fail differently. -/
theorem init_login_failure_no_transport_witness :
    failLoginSession.provider.loginErr = some (GoError.custom ("login denied"))
    ∧ failLoginSession.Init failingTransport
      = (failLoginSession, some (GoError.custom ("login denied"))) :=
  ⟨rfl,
   init_login_failure_no_transport failLoginSession failingTransport
     (GoError.custom ("login denied")) rfl⟩

/-- C6: for every session (hence every coordinate), geometry backend and
wall-clock value, the batch `Announce` builds contains exactly 5
sub-requests in the fixed order: map-objects, hatched-eggs, inventory,
badges, settings. -/
theorem announce_batch_five_fixed_order (s : Session) (geo : S2Geometry) (now : Int) :
    (s.announceRequests (getCellIDs geo s.location) (now * 1000)).map Request.requestType
      = [RequestType.GET_MAP_OBJECTS, RequestType.GET_HATCHED_EGGS, RequestType.GET_INVENTORY,
         RequestType.CHECK_AWARDED_BADGES, RequestType.DOWNLOAD_SETTINGS]
    ∧ (s.announceRequests (getCellIDs geo s.location) (now * 1000)).length = 5 :=
  ⟨rfl, rfl⟩

/-- C7: for every batch of sub-requests, `Call` hands the transport a
`RequestEnvelope` carrying the three fixed protocol constants, the
Session's coordinate, the auth info derived from the provider at call
time, and exactly the given sub-requests in their given order. -/
theorem call_envelope_contents (s : Session) (t : Transport) (requests : List Request) :
    s.Call t requests = t s.getURL (s.callEnvelope requests)
    ∧ (s.callEnvelope requests).requestId = 8145806132888207460
    ∧ (s.callEnvelope requests).statusCode = 2
    ∧ (s.callEnvelope requests).unknown12 = 989
    ∧ (s.callEnvelope requests).longitude = s.location.lon
    ∧ (s.callEnvelope requests).latitude = s.location.lat
    ∧ (s.callEnvelope requests).altitude = s.location.alt
    ∧ (s.callEnvelope requests).authInfo
        = { provider := s.provider.providerString
            token := { contents := s.provider.accessToken, unknown2 := 59 } }
    ∧ (s.callEnvelope requests).requests = requests :=
  ⟨rfl, rfl, rfl, rfl, rfl, rfl, rfl, rfl, rfl⟩

/-- C8: the url (endpoint) field is written only by a successful `Init` —
any other `Init` outcome returns the session unchanged, and a successful
one changes nothing but the url — while `Announce`, `GetPlayer` and
`GetInventory` return the session unchanged whether they succeed or fail. -/
theorem session_fields_frame (s : Session) (geo : S2Geometry) (t : Transport)
    (codec : ProtoCodec) (classify : Int → Option GoError) (now : Int) :
    ((s.Init t).fst = s
      ∨ ((s.Init t).snd = none ∧ (s.Init t).fst.location = s.location
          ∧ (s.Init t).fst.provider = s.provider ∧ (s.Init t).fst.debug = s.debug))
    ∧ (s.Announce geo t codec classify now).fst = s
    ∧ (s.GetPlayer t codec).fst = s
    ∧ (s.GetInventory t codec).fst = s := by
  refine ⟨?_, rfl, rfl, rfl⟩
  unfold Session.Init
  cases s.provider.loginErr with
  | some e => exact Or.inl rfl
  | none =>
    cases s.Call t initRequests with
    | error e => exact Or.inl rfl
    | ok response =>
      by_cases h : response.apiUrl = ""
      · exact Or.inl (by simp [h])
      · exact Or.inr (by simp [h, Session.setURL])

/-- A transport-successful response whose result list is empty. -/
def emptyReturnsResp : ResponseEnvelope := { apiUrl := "host", statusCode := 1, returns := [] }

/-- A transport that always answers with `emptyReturnsResp`. -/
def emptyReturnsTransport : Transport := fun _ _ => Except.ok emptyReturnsResp

/-- C9: `Announce`, `GetPlayer` and `GetInventory` index `Returns[0]`
without a length check: on every transport-successful response with an
empty `Returns` sequence, all three panic (index out of range) instead of
returning an error. -/
theorem empty_returns_panic (s : Session) (geo : S2Geometry) (t : Transport)
    (codec : ProtoCodec) (classify : Int → Option GoError) (now : Int)
    (resp : ResponseEnvelope)
    (ht : ∀ u env, t u env = Except.ok resp) (hr : resp.returns = []) :
    (s.Announce geo t codec classify now).snd
        = Except.error { msg := "runtime error: index out of range" }
    ∧ (s.GetPlayer t codec).snd
        = Except.error { msg := "runtime error: index out of range" }
    ∧ (s.GetInventory t codec).snd
        = Except.error { msg := "runtime error: index out of range" } := by
  refine ⟨?_, ?_, ?_⟩ <;>
    simp [Session.Announce, Session.GetPlayer, Session.GetInventory, Session.Call,
      ht, hr, goIndex]

/-- C9 (witness): the panic at a concrete session and a concrete
empty-result response. -/
theorem empty_returns_panic_witness :
    ((∀ u env, emptyReturnsTransport u env = Except.ok emptyReturnsResp)
      ∧ emptyReturnsResp.returns = [])
    ∧ ((exampleSession.Announce exampleGeo emptyReturnsTransport exampleCodec (fun _ => none) 7).snd
        = Except.error { msg := "runtime error: index out of range" }
      ∧ (exampleSession.GetPlayer emptyReturnsTransport exampleCodec).snd
        = Except.error { msg := "runtime error: index out of range" }
      ∧ (exampleSession.GetInventory emptyReturnsTransport exampleCodec).snd
        = Except.error { msg := "runtime error: index out of range" }) :=
  ⟨⟨fun _ _ => rfl, rfl⟩,
   empty_returns_panic exampleSession exampleGeo emptyReturnsTransport exampleCodec
     (fun _ => none) 7 emptyReturnsResp (fun _ _ => rfl) rfl⟩

/-- A transport-successful response with one raw result payload. -/
def payloadResp : ResponseEnvelope :=
  { apiUrl := "host", statusCode := 3, returns := [Bytes.raw [9, 9]] }

/-- A transport that always answers with `payloadResp`. -/
def payloadTransport : Transport := fun _ _ => Except.ok payloadResp

/-- C10: the error `proto.Unmarshal` returns for `Returns[0]` is discarded:
even when decoding fails, `GetPlayer` and `GetInventory` report a nil
error alongside whatever state the decoder left in the fresh message, and
`Announce` reports only the classified status code. -/
theorem decode_failure_no_error (s : Session) (geo : S2Geometry) (t : Transport)
    (codec : ProtoCodec) (classify : Int → Option GoError) (now : Int)
    (resp : ResponseEnvelope) (b : Bytes) (ep ei em : GoError)
    (ht : ∀ u env, t u env = Except.ok resp) (hb : resp.returns[0]? = some b)
    (hp : (codec.unmarshalGetPlayer b).snd = some ep)
    (hi : (codec.unmarshalGetInventory b).snd = some ei)
    (hm : (codec.unmarshalGetMapObjects b).snd = some em) :
    (s.GetPlayer t codec).snd = Except.ok (some ((codec.unmarshalGetPlayer b).fst), none)
    ∧ (s.GetInventory t codec).snd = Except.ok (some ((codec.unmarshalGetInventory b).fst), none)
    ∧ (s.Announce geo t codec classify now).snd
        = Except.ok (some ((codec.unmarshalGetMapObjects b).fst), classify resp.statusCode) := by
  refine ⟨?_, ?_, ?_⟩ <;>
    simp [Session.Announce, Session.GetPlayer, Session.GetInventory, Session.Call,
      ht, goIndex, hb]

/-- C10 (witness): decode failures silently ignored at a concrete session,
transport and a codec on which every decode fails. -/
theorem decode_failure_no_error_witness :
    ((∀ u env, payloadTransport u env = Except.ok payloadResp)
      ∧ payloadResp.returns[0]? = some (Bytes.raw [9, 9])
      ∧ (exampleCodec.unmarshalGetPlayer (Bytes.raw [9, 9])).snd
          = some (GoError.custom ("proto: decode failed"))
      ∧ (exampleCodec.unmarshalGetInventory (Bytes.raw [9, 9])).snd
          = some (GoError.custom ("proto: decode failed"))
      ∧ (exampleCodec.unmarshalGetMapObjects (Bytes.raw [9, 9])).snd
          = some (GoError.custom ("proto: decode failed")))
    ∧ ((exampleSession.GetPlayer payloadTransport exampleCodec).snd
        = Except.ok (some ((exampleCodec.unmarshalGetPlayer (Bytes.raw [9, 9])).fst), none)
      ∧ (exampleSession.GetInventory payloadTransport exampleCodec).snd
        = Except.ok (some ((exampleCodec.unmarshalGetInventory (Bytes.raw [9, 9])).fst), none)
      ∧ (exampleSession.Announce exampleGeo payloadTransport exampleCodec (fun _ => none) 7).snd
        = Except.ok (some ((exampleCodec.unmarshalGetMapObjects (Bytes.raw [9, 9])).fst),
            (fun _ => none) payloadResp.statusCode)) :=
  ⟨⟨fun _ _ => rfl, rfl, rfl, rfl, rfl⟩,
   decode_failure_no_error exampleSession exampleGeo payloadTransport exampleCodec
     (fun _ => none) 7 payloadResp (Bytes.raw [9, 9])
     (GoError.custom ("proto: decode failed")) (GoError.custom ("proto: decode failed"))
     (GoError.custom ("proto: decode failed"))
     (fun _ _ => rfl) rfl rfl rfl rfl⟩
